import Mathlib

/-!
Shallow embedding of the claudio production-orchestration engine.

The definitions below are translated from the repository sources:
* `src/claudio/models/workflow_state.py` (WorkflowStatus, ProductionState,
  AssetPaths, WorkflowState and their methods),
* `src/models/scene.py` (Scene, ScenePlan),
* `src/claudio/agents/production_orchestrator.py` (ProductionOrchestratorAgent),
* `src/agents/scene_planner.py` (ScenePlanningAgent.validate_scene_plan),
* `src/main.py` (the interactive plan-approval loop).

Modelling conventions:
* Python `float` durations are modelled as `ℚ`.
* Python `Optional[str]` is `Option String`; Python truthiness of an optional
  string (`if scene.video_path:`) is `strTruthy` (false for `None` and `""`).
* The asyncio tasks of a stage mutate the shared `WorkflowState`; the embedding
  runs them sequentially in dispatch (scene) order, which is the canonical
  serialization — each task touches only its own scene's slot.
* Calls to the generation gateway tools and to `StateManager.save_state` are
  recorded in a `RunLog`; the outcome of each external tool call is an input
  (`ToolOutcome` per scene task, `ConcatOutcome` for the concatenation tool,
  which never raises because it catches internally).
* Wall-clock timestamps (`created_at` / `updated_at`), logging, the progress
  tracker and the fields of `WorkflowState` not read by the verified
  operations (`requirements`, `estimated_cost`) are outside the embedding.
* `ScenePlan.quality` is read by the orchestrator (resolution of video calls);
  the `src/models/scene.py` copy of ScenePlan lacks the field, whose default
  `"1080p"` is taken from the serialized example in
  `src/claudio/models/workflow_state.py`.
-/

namespace Claudio

/-- `WorkflowStatus` enum from `src/claudio/models/workflow_state.py`. -/
inductive WorkflowStatus where
  | planning
  | approval
  | generating_images
  | generating_videos
  | concatenating
  | completed
  | failed
deriving DecidableEq, Repr

/-- `Scene` from `src/models/scene.py` (production-relevant fields). -/
structure Scene where
  scene_id : String
  duration : ℚ
  video_prompt : String
  end_image_prompt : String
  start_image_prompt : Option String := none
  image_generated : Bool := false
  video_generated : Bool := false
  image_path : Option String := none
  video_path : Option String := none
  start_image_path : Option String := none
deriving DecidableEq, Repr

/-- `ScenePlan` from `src/models/scene.py`; `quality` is the extra field read
by the orchestrator (see module comment). -/
structure ScenePlan where
  total_duration : ℚ
  theme : Option String := none
  scenes : List Scene
  quality : String := "1080p"
deriving DecidableEq, Repr

/-- `ProductionState` from `src/claudio/models/workflow_state.py`:
three Python lists of scene ids. -/
structure ProductionState where
  images_generated : List String := []
  videos_generated : List String := []
  failed_scenes : List String := []
deriving DecidableEq, Repr

/-- `ProductionState.mark_image_generated`: append unless already present. -/
def ProductionState.mark_image_generated (ps : ProductionState) (scene_id : String) :
    ProductionState :=
  if scene_id ∈ ps.images_generated then ps
  else { ps with images_generated := ps.images_generated ++ [scene_id] }

/-- `ProductionState.mark_video_generated`: append unless already present. -/
def ProductionState.mark_video_generated (ps : ProductionState) (scene_id : String) :
    ProductionState :=
  if scene_id ∈ ps.videos_generated then ps
  else { ps with videos_generated := ps.videos_generated ++ [scene_id] }

/-- `ProductionState.mark_scene_failed`: append unless already present. -/
def ProductionState.mark_scene_failed (ps : ProductionState) (scene_id : String) :
    ProductionState :=
  if scene_id ∈ ps.failed_scenes then ps
  else { ps with failed_scenes := ps.failed_scenes ++ [scene_id] }

/-- `ProductionState.is_image_generated`. -/
def ProductionState.is_image_generated (ps : ProductionState) (scene_id : String) : Bool :=
  decide (scene_id ∈ ps.images_generated)

/-- `ProductionState.is_video_generated`. -/
def ProductionState.is_video_generated (ps : ProductionState) (scene_id : String) : Bool :=
  decide (scene_id ∈ ps.videos_generated)

/-- `ProductionState.is_scene_failed`. -/
def ProductionState.is_scene_failed (ps : ProductionState) (scene_id : String) : Bool :=
  decide (scene_id ∈ ps.failed_scenes)

/-- Overwrite-or-append update of an association list, modelling Python
`dict[key] = value` (insertion order kept, existing key overwritten in place). -/
def updateAssoc : List (String × String) → String → String → List (String × String)
  | [], k, v => [(k, v)]
  | (k', v') :: rest, k, v =>
    if k' = k then (k, v) :: rest else (k', v') :: updateAssoc rest k v

/-- `AssetPaths` from `src/claudio/models/workflow_state.py`;
the two Python dicts are association lists. -/
structure AssetPaths where
  images : List (String × String) := []
  videos : List (String × String) := []
  final_video : Option String := none
deriving DecidableEq, Repr

/-- `AssetPaths.add_image`. -/
def AssetPaths.add_image (a : AssetPaths) (scene_id path : String) : AssetPaths :=
  { a with images := updateAssoc a.images scene_id path }

/-- `AssetPaths.add_video`. -/
def AssetPaths.add_video (a : AssetPaths) (scene_id path : String) : AssetPaths :=
  { a with videos := updateAssoc a.videos scene_id path }

/-- `WorkflowState` from `src/claudio/models/workflow_state.py`
(fields read or written by the verified operations). -/
structure WorkflowState where
  session_id : String
  status : WorkflowStatus
  scene_plan : Option ScenePlan := none
  production_state : ProductionState := {}
  assets : AssetPaths := {}
  error_message : Option String := none
deriving DecidableEq, Repr

/-- `WorkflowState.update_status`: unconditional assignment of the new status
(the timestamp refresh is outside the embedding). -/
def WorkflowState.update_status (st : WorkflowState) (status : WorkflowStatus) :
    WorkflowState :=
  { st with status := status }

/-- `WorkflowState.mark_failed`. -/
def WorkflowState.mark_failed (st : WorkflowState) (error_message : String) :
    WorkflowState :=
  { st with status := WorkflowStatus.failed, error_message := some error_message }

/-- `WorkflowState.is_complete`. -/
def WorkflowState.is_complete (st : WorkflowState) : Bool :=
  decide (st.status = WorkflowStatus.completed)

/-- `WorkflowState.is_failed`. -/
def WorkflowState.is_failed (st : WorkflowState) : Bool :=
  decide (st.status = WorkflowStatus.failed)

/-- `WorkflowState.can_resume`:
`self.status not in [COMPLETED, FAILED]`. -/
def WorkflowState.can_resume (st : WorkflowState) : Bool :=
  decide (st.status ∉ [WorkflowStatus.completed, WorkflowStatus.failed])

/-- Python truthiness of an `Optional[str]`: `None` and `""` are falsy. -/
def strTruthy : Option String → Bool
  | none => false
  | some s => decide (s ≠ "")

/-- The scenes of the state's plan (empty when no plan is present). -/
def WorkflowState.planScenes (st : WorkflowState) : List Scene :=
  match st.scene_plan with
  | none => []
  | some plan => plan.scenes

/-- `state.scene_plan.quality if state.scene_plan else "1080p"`
(the resolution argument of the video tool call). -/
def WorkflowState.planQuality (st : WorkflowState) : String :=
  match st.scene_plan with
  | none => "1080p"
  | some plan => plan.quality

/-- Replace scene `i` of the plan, modelling the in-place mutation of the
shared `Scene` object by a per-scene task. -/
def WorkflowState.setScene (st : WorkflowState) (i : Nat) (sc : Scene) : WorkflowState :=
  match st.scene_plan with
  | none => st
  | some plan => { st with scene_plan := some { plan with scenes := plan.scenes.set i sc } }

/-- Outcome of one generation-tool call, an input of the embedding:
`ok` is a success dict carrying the asset path, `fail` a failure dict carrying
the error string, `exn` an exception raised inside the per-scene task body
(caught by the task's own `except` handler). -/
inductive ToolOutcome where
  | ok (path : String)
  | fail (error : String)
  | exn (error : String)
deriving DecidableEq, Repr

/-- Outcome of the concatenation tool, which catches internally and always
returns a result dict (`src/claudio/mcp_server/tools.py`). -/
inductive ConcatOutcome where
  | ok (final_video_path : String)
  | fail (error : String)
deriving DecidableEq, Repr

/-- A recorded invocation of an external tool (the generation gateway or the
concatenation tool) with the arguments the orchestrator passes. -/
inductive GatewayCall where
  | image (session_id scene_id prompt aspect_ratio quality : String)
  | video (session_id scene_id prompt : String) (duration : ℚ)
      (end_image_path : String) (start_image_path : Option String) (resolution : String)
  | concat (session_id : String) (video_paths : List String)
deriving DecidableEq, Repr

/-- The result dict a per-scene task returns: `success` flag, asset path on
success, error string on failure. -/
structure ToolResult where
  success : Bool
  path : Option String := none
  error : Option String := none
deriving DecidableEq, Repr

/-- Trace of a run: the states passed to `StateManager.save_state`, in call
order, and the external tool calls made, in call order. -/
structure RunLog where
  saved : List WorkflowState := []
  calls : List GatewayCall := []
deriving DecidableEq, Repr

/-- Concatenation of run logs. -/
def RunLog.app (a b : RunLog) : RunLog :=
  { saved := a.saved ++ b.saved, calls := a.calls ++ b.calls }

instance : Append RunLog := ⟨RunLog.app⟩

/-- `ProductionOrchestratorAgent._generate_scene_image` for the scene at
index `i`, given the outcome of its `generate_image_tool` call. -/
def sceneImageTask (outcome : ToolOutcome) (st : WorkflowState) (i : Nat) :
    WorkflowState × RunLog × ToolResult :=
  match st.planScenes[i]? with
  | none => (st, {}, { success := false, error := some "scene index out of range" })
  | some scene =>
    let call := GatewayCall.image st.session_id scene.scene_id scene.end_image_prompt
      "16:9" "hd"
    match outcome with
    | ToolOutcome.ok p =>
      let st1 := st.setScene i
        { scene with image_generated := true, image_path := some p }
      let st2 := { st1 with
        production_state := st1.production_state.mark_image_generated scene.scene_id,
        assets := st1.assets.add_image scene.scene_id p }
      (st2, { saved := [st2], calls := [call] }, { success := true, path := some p })
    | ToolOutcome.fail e =>
      let st1 := { st with
        production_state := st.production_state.mark_scene_failed scene.scene_id }
      (st1, { calls := [call] }, { success := false, error := some e })
    | ToolOutcome.exn e =>
      let st1 := { st with
        production_state := st.production_state.mark_scene_failed scene.scene_id }
      (st1, { calls := [call] }, { success := false, error := some e })

/-- Run the image tasks of the given scene indices in dispatch order,
threading the shared state and collecting logs and per-task results
(the result list is in input order, as with `asyncio.gather`). -/
def runImageTasks (ienv : Nat → ToolOutcome) :
    WorkflowState → List Nat → WorkflowState × RunLog × List ToolResult
  | st, [] => (st, {}, [])
  | st, i :: rest =>
    let out := sceneImageTask (ienv i) st i
    let outs := runImageTasks ienv out.1 rest
    (outs.1, out.2.1 ++ outs.2.1, out.2.2 :: outs.2.2)

/-- `ProductionOrchestratorAgent.generate_images`: raises when no plan is
present; otherwise transitions to GENERATING_IMAGES, persists, dispatches one
image task per scene and returns `(successful, failed)` counts. -/
def generate_images (ienv : Nat → ToolOutcome) (st : WorkflowState) :
    Except String (Nat × Nat) × WorkflowState × RunLog :=
  match st.scene_plan with
  | none => (Except.error "No scene plan available", st, {})
  | some plan =>
    let st1 := st.update_status WorkflowStatus.generating_images
    let out := runImageTasks ienv st1 (List.range plan.scenes.length)
    let successful := out.2.2.countP (fun r => r.success)
    let failed := out.2.2.length - successful
    (Except.ok (successful, failed), out.1, { saved := [st1] } ++ out.2.1)

/-- Start-frame inputs computed at dispatch time by
`ProductionOrchestratorAgent.generate_videos`: `None` for the first scene,
the previous scene's `image_path` for every later scene. -/
def prevImagePaths (scenes : List Scene) : List (Option String) :=
  (List.range scenes.length).map (fun i =>
    if i = 0 then none else (scenes[i - 1]?).bind Scene.image_path)

/-- `ProductionOrchestratorAgent._generate_scene_video` for the scene at
index `i` with the pre-computed start-frame input `prev_image_path`.
A scene whose own end-frame image is missing raises a `ValueError` that the
task's own handler converts into a failure result, before any gateway call. -/
def sceneVideoTask (outcome : ToolOutcome) (prev_image_path : Option String)
    (st : WorkflowState) (i : Nat) : WorkflowState × RunLog × ToolResult :=
  match st.planScenes[i]? with
  | none => (st, {}, { success := false, error := some "scene index out of range" })
  | some scene =>
    if scene.image_generated && strTruthy scene.image_path then
      let call := GatewayCall.video st.session_id scene.scene_id scene.video_prompt
        scene.duration (scene.image_path.getD "") prev_image_path st.planQuality
      match outcome with
      | ToolOutcome.ok p =>
        let st1 := st.setScene i
          { scene with video_generated := true, video_path := some p }
        let st2 := { st1 with
          production_state := st1.production_state.mark_video_generated scene.scene_id,
          assets := st1.assets.add_video scene.scene_id p }
        (st2, { saved := [st2], calls := [call] }, { success := true, path := some p })
      | ToolOutcome.fail e =>
        let st1 := { st with
          production_state := st.production_state.mark_scene_failed scene.scene_id }
        (st1, { calls := [call] }, { success := false, error := some e })
      | ToolOutcome.exn e =>
        let st1 := { st with
          production_state := st.production_state.mark_scene_failed scene.scene_id }
        (st1, { calls := [call] }, { success := false, error := some e })
    else
      let st1 := { st with
        production_state := st.production_state.mark_scene_failed scene.scene_id }
      (st1, {},
        { success := false,
          error := some ("Image not generated for scene " ++ scene.scene_id) })

/-- Run the video tasks for the given (scene index, start-frame input) pairs
in dispatch order. -/
def runVideoTasks (venv : Nat → ToolOutcome) :
    WorkflowState → List (Nat × Option String) → WorkflowState × RunLog × List ToolResult
  | st, [] => (st, {}, [])
  | st, ip :: rest =>
    let out := sceneVideoTask (venv ip.1) ip.2 st ip.1
    let outs := runVideoTasks venv out.1 rest
    (outs.1, out.2.1 ++ outs.2.1, out.2.2 :: outs.2.2)

/-- `ProductionOrchestratorAgent.generate_videos`: raises when no plan is
present; otherwise transitions to GENERATING_VIDEOS, persists, computes each
scene's start-frame input from the plan as of stage entry, dispatches one
video task per scene and returns `(successful, failed)` counts. -/
def generate_videos (venv : Nat → ToolOutcome) (st : WorkflowState) :
    Except String (Nat × Nat) × WorkflowState × RunLog :=
  match st.scene_plan with
  | none => (Except.error "No scene plan available", st, {})
  | some plan =>
    let st1 := st.update_status WorkflowStatus.generating_videos
    let pairs := (List.range plan.scenes.length).zip (prevImagePaths plan.scenes)
    let out := runVideoTasks venv st1 pairs
    let successful := out.2.2.countP (fun r => r.success)
    let failed := out.2.2.length - successful
    (Except.ok (successful, failed), out.1, { saved := [st1] } ++ out.2.1)

/-- The `video_paths` list built by `concatenate_videos`: the `video_path`
of each scene that has one (Python-truthy), in plan order. -/
def sceneVideoPaths : List Scene → List String
  | [] => []
  | sc :: rest =>
    if strTruthy sc.video_path then sc.video_path.getD "" :: sceneVideoPaths rest
    else sceneVideoPaths rest

/-- `ProductionOrchestratorAgent.concatenate_videos`: raises when no plan is
present; transitions to CONCATENATING and persists; raises when no scene has
a video path; otherwise calls the concatenation tool and, on a success
result, records the final video path, transitions to COMPLETED and persists. -/
def concatenate_videos (cres : ConcatOutcome) (st : WorkflowState) :
    Except String ToolResult × WorkflowState × RunLog :=
  match st.scene_plan with
  | none => (Except.error "No scene plan available", st, {})
  | some plan =>
    let st1 := st.update_status WorkflowStatus.concatenating
    let paths := sceneVideoPaths plan.scenes
    if paths = [] then
      (Except.error "No videos available for concatenation", st1, { saved := [st1] })
    else
      let call := GatewayCall.concat st.session_id paths
      match cres with
      | ConcatOutcome.ok p =>
        let st2 := ({ st1 with
          assets := { st1.assets with final_video := some p } }).update_status
            WorkflowStatus.completed
        (Except.ok { success := true, path := some p }, st2,
          { saved := [st1, st2], calls := [call] })
      | ConcatOutcome.fail e =>
        (Except.ok { success := false, error := some e }, st1,
          { saved := [st1], calls := [call] })

/-- The `except` handler of `execute_full_production`: mark the state FAILED
with the exception text, persist it, re-raise. -/
def pipelineFail (e : String) (s : WorkflowState) (log : RunLog) :
    Except String WorkflowState × WorkflowState × RunLog :=
  (Except.error e, s.mark_failed e, log ++ ({ saved := [s.mark_failed e] } : RunLog))

/-- `ProductionOrchestratorAgent.execute_full_production`: image stage, then
video stage, then concatenation; raises when a stage has zero successes or
the concatenation result is not a success; on any exception marks the state
FAILED with the exception text, persists it and re-raises. -/
def execute_full_production (ienv venv : Nat → ToolOutcome) (cres : ConcatOutcome)
    (st : WorkflowState) : Except String WorkflowState × WorkflowState × RunLog :=
  let failWith := pipelineFail
  match generate_images ienv st with
  | (Except.error e, s, log) => failWith e s log
  | (Except.ok (imgS, _), s, log) =>
    if imgS = 0 then failWith "No images were generated successfully" s log
    else
      match generate_videos venv s with
      | (Except.error e, s2, log2) => failWith e s2 (log ++ log2)
      | (Except.ok (vidS, _), s2, log2) =>
        if vidS = 0 then
          failWith "No videos were generated successfully" s2 (log ++ log2)
        else
          match concatenate_videos cres s2 with
          | (Except.error e, s3, log3) => failWith e s3 (log ++ log2 ++ log3)
          | (Except.ok r, s3, log3) =>
            if r.success then (Except.ok s3, s3, log ++ log2 ++ log3)
            else failWith ("Concatenation failed: " ++ r.error.getD "None") s3
              (log ++ log2 ++ log3)

/-- The per-scene checks of `ScenePlanningAgent.validate_scene_plan`: first
violation wins (duration above the configured maximum, empty video prompt,
empty end-image prompt). Numeric interpolation in the Python error messages
is elided; accept/reject behavior is unchanged. -/
def validateScenes (max_duration : ℚ) : List Scene → Option String
  | [] => none
  | sc :: rest =>
    if sc.duration > max_duration then
      some ("Scene " ++ sc.scene_id ++ " duration exceeds maximum")
    else if sc.video_prompt = "" then
      some ("Scene " ++ sc.scene_id ++ " missing video prompt")
    else if sc.end_image_prompt = "" then
      some ("Scene " ++ sc.scene_id ++ " missing end image prompt")
    else validateScenes max_duration rest

/-- Python's `abs` on a rational, written so that it evaluates by reduction. -/
def ratAbs (x : ℚ) : ℚ := if x < 0 then -x else x

/-- `ScenePlanningAgent.validate_scene_plan` with the configured
`max_scene_duration`: per-scene checks, then the total-duration check
(`abs(calculated - total) > 0.5` rejects). Returns `(is_valid, error)`. -/
def validate_scene_plan (max_duration : ℚ) (plan : ScenePlan) : Bool × Option String :=
  match validateScenes max_duration plan.scenes with
  | some err => (false, some err)
  | none =>
    let calculated := (plan.scenes.map Scene.duration).sum
    if ratAbs (calculated - plan.total_duration) > 1 / 2 then
      (false, some "Scene durations don't match total")
    else (true, none)

/-- What one iteration of the interactive approval loop in `src/main.py`
decides to do once the planner produced a complete plan. -/
inductive PlanStepAction where
  | generate
  | continueConversation
  | stop
deriving DecidableEq, Repr

/-- One iteration of the plan-approval loop in `src/main.py`
(`create_video_interactive`): without a complete plan the conversation
continues; with a plan that fails validation the conversation continues
(no generation); with a valid plan, `yes` starts generation, `edit`
continues the conversation, anything else exits. -/
def interactive_plan_step (max_duration : ℚ) (planOpt : Option ScenePlan)
    (approval : String) : PlanStepAction :=
  match planOpt with
  | none => PlanStepAction.continueConversation
  | some plan =>
    if (validate_scene_plan max_duration plan).1 = false then
      PlanStepAction.continueConversation
    else if approval.toLower = "yes" then PlanStepAction.generate
    else if approval.toLower = "edit" then PlanStepAction.continueConversation
    else PlanStepAction.stop

/-- The image-gateway call the image stage makes for scene index `i`
(none when the index is out of range). -/
def imageCallFor (st : WorkflowState) (i : Nat) : Option GatewayCall :=
  (st.planScenes[i]?).map (fun sc =>
    GatewayCall.image st.session_id sc.scene_id sc.end_image_prompt "16:9" "hd")

/-- The result dict the image task for scene index `i` returns, given its
tool outcome. -/
def imageResultFor (o : ToolOutcome) (st : WorkflowState) (i : Nat) : ToolResult :=
  match st.planScenes[i]? with
  | none => { success := false, error := some "scene index out of range" }
  | some _ =>
    match o with
    | ToolOutcome.ok p => { success := true, path := some p }
    | ToolOutcome.fail e => { success := false, error := some e }
    | ToolOutcome.exn e => { success := false, error := some e }

/-- The video-gateway call the video stage makes for the dispatch pair
`(scene index, start-frame input)`: none when the scene is out of range or
its own end-frame image is missing. -/
def videoCallFor (st : WorkflowState) (ip : Nat × Option String) : Option GatewayCall :=
  match st.planScenes[ip.1]? with
  | none => none
  | some sc =>
    if sc.image_generated && strTruthy sc.image_path then
      some (GatewayCall.video st.session_id sc.scene_id sc.video_prompt sc.duration
        (sc.image_path.getD "") ip.2 st.planQuality)
    else none

/-- The result dict the video task for a dispatch pair returns, given its
tool outcome. -/
def videoResultFor (o : ToolOutcome) (st : WorkflowState) (ip : Nat × Option String) :
    ToolResult :=
  match st.planScenes[ip.1]? with
  | none => { success := false, error := some "scene index out of range" }
  | some sc =>
    if sc.image_generated && strTruthy sc.image_path then
      match o with
      | ToolOutcome.ok p => { success := true, path := some p }
      | ToolOutcome.fail e => { success := false, error := some e }
      | ToolOutcome.exn e => { success := false, error := some e }
    else
      { success := false,
        error := some ("Image not generated for scene " ++ sc.scene_id) }

/-- The dispatch pairs of the video stage for a plan, in scene order. -/
def videoDispatchPairs (plan : ScenePlan) : List (Nat × Option String) :=
  (List.range plan.scenes.length).zip (prevImagePaths plan.scenes)

/-- Some scene of the state's plan has a (Python-truthy) video path. -/
def hasVideo (st : WorkflowState) : Prop :=
  ∃ sc ∈ st.planScenes, strTruthy sc.video_path = true

/-- Placeholder call used only as the default of an `Option.getD`. -/
def nullCall : GatewayCall := GatewayCall.concat "" []

/-- A concrete ProductionState used to witness the marking operations. -/
def wProdState : ProductionState :=
  { images_generated := ["scene_1"], videos_generated := ["scene_1"],
    failed_scenes := ["scene_2"] }

/-- A concrete COMPLETED workflow state. -/
def doneState : WorkflowState :=
  { session_id := "sess-done", status := WorkflowStatus.completed }

/-- The three scenes of the concrete witness plan. -/
def wScene1 : Scene :=
  { scene_id := "scene_1", duration := 8, video_prompt := "zoom into storefront",
    end_image_prompt := "storefront at dusk" }

/-- Second witness scene. -/
def wScene2 : Scene :=
  { scene_id := "scene_2", duration := 8, video_prompt := "pizza being prepared",
    end_image_prompt := "fresh pizza with toppings" }

/-- Third witness scene. -/
def wScene3 : Scene :=
  { scene_id := "scene_3", duration := 4, video_prompt := "family enjoying dinner",
    end_image_prompt := "family at the table" }

/-- A concrete 20-second plan of three scenes. -/
def wPlan : ScenePlan := { total_duration := 20, scenes := [wScene1, wScene2, wScene3] }

/-- A fresh workflow state holding the witness plan. -/
def wState : WorkflowState :=
  { session_id := "sess", status := WorkflowStatus.approval, scene_plan := some wPlan }

/-- The witness plan with a total-duration mismatch of a full second. -/
def wBadPlan : ScenePlan := { total_duration := 21, scenes := [wScene1, wScene2, wScene3] }

/-- Witness scenes with end-frame images recorded. -/
def wScene1i : Scene := { wScene1 with image_generated := true, image_path := some "i1.png" }

/-- Second witness scene with its image recorded. -/
def wScene2i : Scene := { wScene2 with image_generated := true, image_path := some "i2.png" }

/-- Third witness scene with its image recorded. -/
def wScene3i : Scene := { wScene3 with image_generated := true, image_path := some "i3.png" }

/-- The witness plan after a fully successful image stage. -/
def wPlanI : ScenePlan := { total_duration := 20, scenes := [wScene1i, wScene2i, wScene3i] }

/-- Workflow state holding `wPlanI`. -/
def wStateI : WorkflowState :=
  { session_id := "sess", status := WorkflowStatus.generating_videos,
    scene_plan := some wPlanI }

/-- Witness scenes with videos recorded as well. -/
def wScene1v : Scene := { wScene1i with video_generated := true, video_path := some "v1.mp4" }

/-- Second witness scene with its video recorded. -/
def wScene2v : Scene := { wScene2i with video_generated := true, video_path := some "v2.mp4" }

/-- Third witness scene with its video recorded. -/
def wScene3v : Scene := { wScene3i with video_generated := true, video_path := some "v3.mp4" }

/-- The witness plan after a fully successful video stage. -/
def wPlanV : ScenePlan := { total_duration := 20, scenes := [wScene1v, wScene2v, wScene3v] }

/-- Workflow state holding `wPlanV`, completion recorded in scene order. -/
def wStateV : WorkflowState :=
  { session_id := "sess", status := WorkflowStatus.generating_videos,
    scene_plan := some wPlanV,
    production_state :=
      { images_generated := ["scene_1", "scene_2", "scene_3"],
        videos_generated := ["scene_1", "scene_2", "scene_3"] } }

/-- Same plan but with the bookkeeping recorded in a different completion
order (scene_2's video finished first). -/
def wStateV2 : WorkflowState :=
  { session_id := "sess", status := WorkflowStatus.generating_videos,
    scene_plan := some wPlanV,
    production_state :=
      { images_generated := ["scene_2", "scene_3", "scene_1"],
        videos_generated := ["scene_2", "scene_1", "scene_3"] } }

/-- A reloaded mid-production scene whose image and video are both already
recorded. -/
def rScene : Scene :=
  { scene_id := "scene_1", duration := 5, video_prompt := "v", end_image_prompt := "e",
    image_generated := true, video_generated := true,
    image_path := some "old.png", video_path := some "old.mp4" }

/-- The one-scene plan around `rScene`. -/
def rPlan : ScenePlan := { total_duration := 5, scenes := [rScene] }

/-- The reloaded workflow state holding `rPlan`. -/
def rState : WorkflowState :=
  { session_id := "sess-r", status := WorkflowStatus.generating_videos,
    scene_plan := some rPlan,
    production_state :=
      { images_generated := ["scene_1"],
        videos_generated := ["scene_1"] } }

/-- The witness plan with the middle scene's end-frame image missing. -/
def wPlanM : ScenePlan := { total_duration := 20, scenes := [wScene1i, wScene2, wScene3i] }

/-- Workflow state holding `wPlanM`. -/
def wStateM : WorkflowState :=
  { session_id := "sess", status := WorkflowStatus.generating_videos,
    scene_plan := some wPlanM }

theorem setScene_planScenes (st : WorkflowState) (i : Nat) (sc : Scene) :
    (st.setScene i sc).planScenes = st.planScenes.set i sc := by
  cases h : st.scene_plan <;>
    simp [WorkflowState.setScene, WorkflowState.planScenes, h]

theorem setScene_session (st : WorkflowState) (i : Nat) (sc : Scene) :
    (st.setScene i sc).session_id = st.session_id := by
  cases h : st.scene_plan <;> simp [WorkflowState.setScene, h]

theorem setScene_planQuality (st : WorkflowState) (i : Nat) (sc : Scene) :
    (st.setScene i sc).planQuality = st.planQuality := by
  cases h : st.scene_plan <;>
    simp [WorkflowState.setScene, WorkflowState.planQuality, h]

theorem setScene_plan_isSome (st : WorkflowState) (i : Nat) (sc : Scene) :
    (st.setScene i sc).scene_plan.isSome = st.scene_plan.isSome := by
  cases h : st.scene_plan <;> simp [WorkflowState.setScene, h]

theorem sceneImageTask_session (o : ToolOutcome) (st : WorkflowState) (i : Nat) :
    (sceneImageTask o st i).1.session_id = st.session_id := by
  cases hsp : st.scene_plan with
  | none => simp [sceneImageTask, WorkflowState.planScenes, hsp]
  | some plan =>
    cases hsc : plan.scenes[i]? <;> cases o <;>
      simp [sceneImageTask, WorkflowState.planScenes, WorkflowState.setScene, hsp, hsc]

theorem sceneImageTask_planQuality (o : ToolOutcome) (st : WorkflowState) (i : Nat) :
    (sceneImageTask o st i).1.planQuality = st.planQuality := by
  cases hsp : st.scene_plan with
  | none => simp [sceneImageTask, WorkflowState.planScenes, hsp]
  | some plan =>
    cases hsc : plan.scenes[i]? <;> cases o <;>
      simp [sceneImageTask, WorkflowState.planScenes, WorkflowState.planQuality,
        WorkflowState.setScene, hsp, hsc]

theorem sceneImageTask_plan_isSome (o : ToolOutcome) (st : WorkflowState) (i : Nat) :
    (sceneImageTask o st i).1.scene_plan.isSome = st.scene_plan.isSome := by
  cases hsp : st.scene_plan with
  | none => simp [sceneImageTask, WorkflowState.planScenes, hsp]
  | some plan =>
    cases hsc : plan.scenes[i]? <;> cases o <;>
      simp [sceneImageTask, WorkflowState.planScenes, WorkflowState.setScene, hsp, hsc]

theorem sceneImageTask_planScenes_ne (o : ToolOutcome) (st : WorkflowState) (i j : Nat)
    (hj : j ≠ i) :
    (sceneImageTask o st i).1.planScenes[j]? = st.planScenes[j]? := by
  cases hsp : st.scene_plan with
  | none => simp [sceneImageTask, WorkflowState.planScenes, hsp]
  | some plan =>
    cases hsc : plan.scenes[i]? <;> cases o <;>
      simp [sceneImageTask, WorkflowState.planScenes, WorkflowState.setScene, hsp, hsc,
        List.getElem?_set_ne (fun h => hj h.symm)]

theorem sceneImageTask_calls (o : ToolOutcome) (st : WorkflowState) (i : Nat) :
    (sceneImageTask o st i).2.1.calls = (imageCallFor st i).toList := by
  cases hsp : st.scene_plan with
  | none => simp [sceneImageTask, imageCallFor, WorkflowState.planScenes, hsp]
  | some plan =>
    cases hsc : plan.scenes[i]? <;> cases o <;>
      simp [sceneImageTask, imageCallFor, WorkflowState.planScenes,
        WorkflowState.setScene, hsp, hsc]

theorem sceneImageTask_result (o : ToolOutcome) (st : WorkflowState) (i : Nat) :
    (sceneImageTask o st i).2.2 = imageResultFor o st i := by
  cases hsp : st.scene_plan with
  | none => simp [sceneImageTask, imageResultFor, WorkflowState.planScenes, hsp]
  | some plan =>
    cases hsc : plan.scenes[i]? <;> cases o <;>
      simp [sceneImageTask, imageResultFor, WorkflowState.planScenes,
        WorkflowState.setScene, hsp, hsc]

theorem sceneVideoTask_session (o : ToolOutcome) (prev : Option String)
    (st : WorkflowState) (i : Nat) :
    (sceneVideoTask o prev st i).1.session_id = st.session_id := by
  cases hsp : st.scene_plan with
  | none => simp [sceneVideoTask, WorkflowState.planScenes, hsp]
  | some plan =>
    cases hsc : plan.scenes[i]? with
    | none => simp [sceneVideoTask, WorkflowState.planScenes, hsp, hsc]
    | some sc =>
      by_cases hg : (sc.image_generated && strTruthy sc.image_path) = true <;> cases o <;>
        simp [sceneVideoTask, WorkflowState.planScenes, WorkflowState.setScene, hsp, hsc, hg]

theorem sceneVideoTask_planQuality (o : ToolOutcome) (prev : Option String)
    (st : WorkflowState) (i : Nat) :
    (sceneVideoTask o prev st i).1.planQuality = st.planQuality := by
  cases hsp : st.scene_plan with
  | none => simp [sceneVideoTask, WorkflowState.planScenes, hsp]
  | some plan =>
    cases hsc : plan.scenes[i]? with
    | none => simp [sceneVideoTask, WorkflowState.planScenes, hsp, hsc]
    | some sc =>
      by_cases hg : (sc.image_generated && strTruthy sc.image_path) = true <;> cases o <;>
        simp [sceneVideoTask, WorkflowState.planScenes, WorkflowState.planQuality,
          WorkflowState.setScene, hsp, hsc, hg]

theorem sceneVideoTask_plan_isSome (o : ToolOutcome) (prev : Option String)
    (st : WorkflowState) (i : Nat) :
    (sceneVideoTask o prev st i).1.scene_plan.isSome = st.scene_plan.isSome := by
  cases hsp : st.scene_plan with
  | none => simp [sceneVideoTask, WorkflowState.planScenes, hsp]
  | some plan =>
    cases hsc : plan.scenes[i]? with
    | none => simp [sceneVideoTask, WorkflowState.planScenes, hsp, hsc]
    | some sc =>
      by_cases hg : (sc.image_generated && strTruthy sc.image_path) = true <;> cases o <;>
        simp [sceneVideoTask, WorkflowState.planScenes, WorkflowState.setScene, hsp, hsc, hg]

theorem sceneVideoTask_planScenes_ne (o : ToolOutcome) (prev : Option String)
    (st : WorkflowState) (i j : Nat) (hj : j ≠ i) :
    (sceneVideoTask o prev st i).1.planScenes[j]? = st.planScenes[j]? := by
  cases hsp : st.scene_plan with
  | none => simp [sceneVideoTask, WorkflowState.planScenes, hsp]
  | some plan =>
    cases hsc : plan.scenes[i]? with
    | none => simp [sceneVideoTask, WorkflowState.planScenes, hsp, hsc]
    | some sc =>
      by_cases hg : (sc.image_generated && strTruthy sc.image_path) = true <;> cases o <;>
        simp [sceneVideoTask, WorkflowState.planScenes, WorkflowState.setScene, hsp, hsc, hg,
          List.getElem?_set_ne (fun h => hj h.symm)]

theorem sceneVideoTask_calls (o : ToolOutcome) (prev : Option String)
    (st : WorkflowState) (i : Nat) :
    (sceneVideoTask o prev st i).2.1.calls = (videoCallFor st (i, prev)).toList := by
  cases hsp : st.scene_plan with
  | none => simp [sceneVideoTask, videoCallFor, WorkflowState.planScenes, hsp]
  | some plan =>
    cases hsc : plan.scenes[i]? with
    | none => simp [sceneVideoTask, videoCallFor, WorkflowState.planScenes, hsp, hsc]
    | some sc =>
      by_cases hg : (sc.image_generated && strTruthy sc.image_path) = true <;> cases o <;>
        simp [sceneVideoTask, videoCallFor, WorkflowState.planScenes,
          WorkflowState.setScene, hsp, hsc, hg]

theorem sceneVideoTask_result (o : ToolOutcome) (prev : Option String)
    (st : WorkflowState) (i : Nat) :
    (sceneVideoTask o prev st i).2.2 = videoResultFor o st (i, prev) := by
  cases hsp : st.scene_plan with
  | none => simp [sceneVideoTask, videoResultFor, WorkflowState.planScenes, hsp]
  | some plan =>
    cases hsc : plan.scenes[i]? with
    | none => simp [sceneVideoTask, videoResultFor, WorkflowState.planScenes, hsp, hsc]
    | some sc =>
      by_cases hg : (sc.image_generated && strTruthy sc.image_path) = true <;> cases o <;>
        simp [sceneVideoTask, videoResultFor, WorkflowState.planScenes,
          WorkflowState.setScene, hsp, hsc, hg]

@[simp] theorem RunLog_app_calls (a b : RunLog) : (a ++ b).calls = a.calls ++ b.calls := rfl

@[simp] theorem RunLog_app_saved (a b : RunLog) : (a ++ b).saved = a.saved ++ b.saved := rfl

theorem imageCallFor_congr (st st' : WorkflowState) (i : Nat)
    (hses : st'.session_id = st.session_id)
    (hsc : st'.planScenes[i]? = st.planScenes[i]?) :
    imageCallFor st' i = imageCallFor st i := by
  simp [imageCallFor, hses, hsc]

theorem imageResultFor_congr (o : ToolOutcome) (st st' : WorkflowState) (i : Nat)
    (hsc : st'.planScenes[i]? = st.planScenes[i]?) :
    imageResultFor o st' i = imageResultFor o st i := by
  simp only [imageResultFor, hsc]

theorem videoCallFor_congr (st st' : WorkflowState) (ip : Nat × Option String)
    (hses : st'.session_id = st.session_id)
    (hq : st'.planQuality = st.planQuality)
    (hsc : st'.planScenes[ip.1]? = st.planScenes[ip.1]?) :
    videoCallFor st' ip = videoCallFor st ip := by
  simp only [videoCallFor, hses, hq, hsc]

theorem videoResultFor_congr (o : ToolOutcome) (st st' : WorkflowState)
    (ip : Nat × Option String)
    (hsc : st'.planScenes[ip.1]? = st.planScenes[ip.1]?) :
    videoResultFor o st' ip = videoResultFor o st ip := by
  simp only [videoResultFor, hsc]

theorem runImageTasks_spec (ienv : Nat → ToolOutcome) (idxs : List Nat) :
    ∀ (st : WorkflowState), idxs.Nodup →
      (runImageTasks ienv st idxs).2.1.calls = idxs.filterMap (imageCallFor st)
      ∧ (runImageTasks ienv st idxs).2.2 = idxs.map (fun i => imageResultFor (ienv i) st i)
      ∧ (runImageTasks ienv st idxs).1.session_id = st.session_id
      ∧ (runImageTasks ienv st idxs).1.planQuality = st.planQuality
      ∧ (runImageTasks ienv st idxs).1.scene_plan.isSome = st.scene_plan.isSome
      ∧ (∀ j, j ∉ idxs →
          (runImageTasks ienv st idxs).1.planScenes[j]? = st.planScenes[j]?) := by
  induction idxs with
  | nil => intro st _; simp [runImageTasks]
  | cons i rest ih =>
    intro st hnd
    rw [List.nodup_cons] at hnd
    obtain ⟨hi, hrest⟩ := hnd
    obtain ⟨ihc, ihr, ihs, ihq, ihp, ihj⟩ := ih (sceneImageTask (ienv i) st i).1 hrest
    have hne : ∀ j ∈ rest, (sceneImageTask (ienv i) st i).1.planScenes[j]? =
        st.planScenes[j]? := by
      intro j hj
      exact sceneImageTask_planScenes_ne (ienv i) st i j (fun h => hi (h ▸ hj))
    refine ⟨?_, ?_, ?_, ?_, ?_, ?_⟩
    · show (sceneImageTask (ienv i) st i).2.1.calls ++ _ = _
      rw [sceneImageTask_calls, ihc,
        List.filterMap_congr (fun j hj => imageCallFor_congr st _ j
          (sceneImageTask_session (ienv i) st i) (hne j hj))]
      cases hci : imageCallFor st i <;> simp [List.filterMap_cons, hci]
    · show (sceneImageTask (ienv i) st i).2.2 :: _ = _
      rw [sceneImageTask_result, ihr,
        List.map_congr_left (fun j hj => imageResultFor_congr (ienv j) st _ j (hne j hj))]
      simp
    · show (runImageTasks ienv _ rest).1.session_id = _
      rw [ihs, sceneImageTask_session]
    · show (runImageTasks ienv _ rest).1.planQuality = _
      rw [ihq, sceneImageTask_planQuality]
    · show (runImageTasks ienv _ rest).1.scene_plan.isSome = _
      rw [ihp, sceneImageTask_plan_isSome]
    · intro j hj
      rw [List.mem_cons, not_or] at hj
      show (runImageTasks ienv _ rest).1.planScenes[j]? = _
      rw [ihj j hj.2, sceneImageTask_planScenes_ne (ienv i) st i j hj.1]

theorem runVideoTasks_spec (venv : Nat → ToolOutcome) (pairs : List (Nat × Option String)) :
    ∀ (st : WorkflowState), (pairs.map Prod.fst).Nodup →
      (runVideoTasks venv st pairs).2.1.calls = pairs.filterMap (videoCallFor st)
      ∧ (runVideoTasks venv st pairs).2.2 =
          pairs.map (fun ip => videoResultFor (venv ip.1) st ip)
      ∧ (runVideoTasks venv st pairs).1.session_id = st.session_id
      ∧ (runVideoTasks venv st pairs).1.planQuality = st.planQuality
      ∧ (runVideoTasks venv st pairs).1.scene_plan.isSome = st.scene_plan.isSome
      ∧ (∀ j, j ∉ pairs.map Prod.fst →
          (runVideoTasks venv st pairs).1.planScenes[j]? = st.planScenes[j]?) := by
  induction pairs with
  | nil => intro st _; simp [runVideoTasks]
  | cons ip rest ih =>
    intro st hnd
    rw [List.map_cons, List.nodup_cons] at hnd
    obtain ⟨hi, hrest⟩ := hnd
    obtain ⟨ihc, ihr, ihs, ihq, ihp, ihj⟩ :=
      ih (sceneVideoTask (venv ip.1) ip.2 st ip.1).1 hrest
    have hne : ∀ jp ∈ rest, (sceneVideoTask (venv ip.1) ip.2 st ip.1).1.planScenes[jp.1]? =
        st.planScenes[jp.1]? := by
      intro jp hj
      refine sceneVideoTask_planScenes_ne (venv ip.1) ip.2 st ip.1 jp.1 (fun h => hi ?_)
      exact h ▸ List.mem_map_of_mem Prod.fst hj
    refine ⟨?_, ?_, ?_, ?_, ?_, ?_⟩
    · show (sceneVideoTask (venv ip.1) ip.2 st ip.1).2.1.calls ++ _ = _
      rw [sceneVideoTask_calls, ihc,
        List.filterMap_congr (fun jp hj => videoCallFor_congr st _ jp
          (sceneVideoTask_session (venv ip.1) ip.2 st ip.1)
          (sceneVideoTask_planQuality (venv ip.1) ip.2 st ip.1) (hne jp hj))]
      cases hci : videoCallFor st ip <;> simp [List.filterMap_cons, hci]
    · show (sceneVideoTask (venv ip.1) ip.2 st ip.1).2.2 :: _ = _
      rw [sceneVideoTask_result, ihr,
        List.map_congr_left (fun jp hj =>
          videoResultFor_congr (venv jp.1) st _ jp (hne jp hj))]
      simp
    · show (runVideoTasks venv _ rest).1.session_id = _
      rw [ihs, sceneVideoTask_session]
    · show (runVideoTasks venv _ rest).1.planQuality = _
      rw [ihq, sceneVideoTask_planQuality]
    · show (runVideoTasks venv _ rest).1.scene_plan.isSome = _
      rw [ihp, sceneVideoTask_plan_isSome]
    · intro j hj
      rw [List.map_cons, List.mem_cons, not_or] at hj
      show (runVideoTasks venv _ rest).1.planScenes[j]? = _
      rw [ihj j hj.2, sceneVideoTask_planScenes_ne (venv ip.1) ip.2 st ip.1 j hj.1]

@[simp] theorem update_status_scene_plan (st : WorkflowState) (s : WorkflowStatus) :
    (st.update_status s).scene_plan = st.scene_plan := rfl

@[simp] theorem update_status_planScenes (st : WorkflowState) (s : WorkflowStatus) :
    (st.update_status s).planScenes = st.planScenes := rfl

@[simp] theorem update_status_session (st : WorkflowState) (s : WorkflowStatus) :
    (st.update_status s).session_id = st.session_id := rfl

@[simp] theorem update_status_planQuality (st : WorkflowState) (s : WorkflowStatus) :
    (st.update_status s).planQuality = st.planQuality := rfl

theorem sceneVideoTask_hasVideo (o : ToolOutcome) (prev : Option String)
    (st : WorkflowState) (i : Nat) (ho : ∀ p, o = ToolOutcome.ok p → p ≠ "") :
    (hasVideo st → hasVideo (sceneVideoTask o prev st i).1)
    ∧ ((sceneVideoTask o prev st i).2.2.success = true →
        hasVideo (sceneVideoTask o prev st i).1) := by
  cases hsp : st.scene_plan with
  | none =>
    constructor <;> intro h <;>
      · simp only [sceneVideoTask, WorkflowState.planScenes, hsp] at h ⊢
        first
        | exact h
        | simp at h
  | some plan =>
    cases hsc : plan.scenes[i]? with
    | none =>
      constructor <;> intro h <;>
        · simp only [sceneVideoTask, WorkflowState.planScenes, hsp, hsc] at h ⊢
          first
          | exact h
          | simp at h
    | some sc =>
      by_cases hg : (sc.image_generated && strTruthy sc.image_path) = true
      · cases o with
        | ok p =>
          have hp : p ≠ "" := ho p rfl
          have hlen : i < plan.scenes.length := by
            by_contra hlt
            rw [List.getElem?_eq_none (Nat.le_of_not_lt hlt)] at hsc
            exact Option.noConfusion hsc
          have hmem : ({ sc with video_generated := true, video_path := some p } : Scene)
              ∈ plan.scenes.set i { sc with video_generated := true, video_path := some p } := by
            have hlen' : i < (plan.scenes.set i
                { sc with video_generated := true, video_path := some p }).length := by
              simpa using hlen
            have h2 := List.getElem_mem hlen'
            rwa [List.getElem_set_self hlen'] at h2
          have hv : hasVideo (sceneVideoTask (ToolOutcome.ok p) prev st i).1 := by
            refine ⟨{ sc with video_generated := true, video_path := some p }, ?_, ?_⟩
            · simpa [sceneVideoTask, WorkflowState.planScenes, WorkflowState.setScene,
                hsp, hsc, hg] using hmem
            · simp [strTruthy, hp]
          exact ⟨fun _ => hv, fun _ => hv⟩
        | fail e =>
          constructor <;> intro h
          · simpa [sceneVideoTask, hasVideo, WorkflowState.planScenes, hsp, hsc, hg] using h
          · simp [sceneVideoTask, WorkflowState.planScenes, hsp, hsc, hg] at h
        | exn e =>
          constructor <;> intro h
          · simpa [sceneVideoTask, hasVideo, WorkflowState.planScenes, hsp, hsc, hg] using h
          · simp [sceneVideoTask, WorkflowState.planScenes, hsp, hsc, hg] at h
      · constructor <;> intro h
        · simpa [sceneVideoTask, hasVideo, WorkflowState.planScenes, hsp, hsc, hg] using h
        · simp [sceneVideoTask, WorkflowState.planScenes, hsp, hsc, hg] at h

theorem runVideoTasks_hasVideo (venv : Nat → ToolOutcome)
    (hv : ∀ i p, venv i = ToolOutcome.ok p → p ≠ "")
    (pairs : List (Nat × Option String)) :
    ∀ st : WorkflowState,
      ((∃ r ∈ (runVideoTasks venv st pairs).2.2, r.success = true) ∨ hasVideo st) →
      hasVideo (runVideoTasks venv st pairs).1 := by
  induction pairs with
  | nil =>
    intro st h
    rcases h with ⟨r, hr, _⟩ | h
    · simp [runVideoTasks] at hr
    · simpa [runVideoTasks] using h
  | cons ip rest ih =>
    intro st h
    have hstep := sceneVideoTask_hasVideo (venv ip.1) ip.2 st ip.1
      (fun p hp => hv ip.1 p hp)
    rcases h with ⟨r, hr, hsucc⟩ | h
    · rcases List.mem_cons.mp hr with hr0 | hrrest
      · exact ih _ (Or.inr (hstep.2 (hr0 ▸ hsucc)))
      · exact ih _ (Or.inl ⟨r, hrrest, hsucc⟩)
    · exact ih _ (Or.inr (hstep.1 h))

theorem sceneVideoPaths_eq_nil_iff (l : List Scene) :
    sceneVideoPaths l = [] ↔ ∀ sc ∈ l, strTruthy sc.video_path = false := by
  induction l with
  | nil => simp [sceneVideoPaths]
  | cons sc rest ih =>
    by_cases h : strTruthy sc.video_path = true
    · simp [sceneVideoPaths, h]
    · rw [Bool.not_eq_true] at h
      simp [sceneVideoPaths, h, ih]

theorem sceneVideoPaths_eq_filterMap (l : List Scene) :
    sceneVideoPaths l =
      l.filterMap (fun sc => if strTruthy sc.video_path then sc.video_path else none) := by
  induction l with
  | nil => simp [sceneVideoPaths]
  | cons sc rest ih =>
    by_cases h : strTruthy sc.video_path = true
    · cases hvp : sc.video_path with
      | none => rw [hvp] at h; simp [strTruthy] at h
      | some p =>
        rw [hvp] at h
        simp [sceneVideoPaths, List.filterMap_cons, hvp, h, ih]
    · rw [Bool.not_eq_true] at h
      simp [sceneVideoPaths, h, List.filterMap_cons, ih]

theorem pipelineFail_spec (e : String) (s : WorkflowState) (log : RunLog) :
    (pipelineFail e s log).1 = Except.error e
    ∧ (pipelineFail e s log).2.1.status = WorkflowStatus.failed
    ∧ (pipelineFail e s log).2.1.error_message = some e
    ∧ (pipelineFail e s log).2.2.saved.getLast? = some (pipelineFail e s log).2.1 := by
  refine ⟨rfl, rfl, rfl, ?_⟩
  show (log.saved ++ [s.mark_failed e]).getLast? = some (s.mark_failed e)
  exact List.getLast?_concat log.saved

theorem generate_images_spec (ienv : Nat → ToolOutcome) (st : WorkflowState)
    (plan : ScenePlan) (h : st.scene_plan = some plan) :
    (generate_images ienv st).1 = Except.ok
      (((List.range plan.scenes.length).map
          (fun i => imageResultFor (ienv i) st i)).countP (fun r => r.success),
        plan.scenes.length -
          ((List.range plan.scenes.length).map
            (fun i => imageResultFor (ienv i) st i)).countP (fun r => r.success))
    ∧ (generate_images ienv st).2.2.calls =
        (List.range plan.scenes.length).filterMap (imageCallFor st)
    ∧ (generate_images ienv st).2.1.session_id = st.session_id
    ∧ (generate_images ienv st).2.1.planQuality = st.planQuality
    ∧ (generate_images ienv st).2.1.scene_plan.isSome = true := by
  have hnd := List.nodup_range plan.scenes.length
  obtain ⟨hc, hr, hs, hq, hp, _⟩ := runImageTasks_spec ienv (List.range plan.scenes.length)
    (st.update_status WorkflowStatus.generating_images) hnd
  have hres : (runImageTasks ienv (st.update_status WorkflowStatus.generating_images)
      (List.range plan.scenes.length)).2.2 =
      (List.range plan.scenes.length).map (fun i => imageResultFor (ienv i) st i) := by
    rw [hr]
    exact List.map_congr_left (fun i _ => imageResultFor_congr (ienv i) st _ i rfl)
  have hcall : (runImageTasks ienv (st.update_status WorkflowStatus.generating_images)
      (List.range plan.scenes.length)).2.1.calls =
      (List.range plan.scenes.length).filterMap (imageCallFor st) := by
    rw [hc]
    exact List.filterMap_congr (fun i _ => imageCallFor_congr st _ i rfl rfl)
  refine ⟨?_, ?_, ?_, ?_, ?_⟩
  · simp only [generate_images, h, hres]
    rw [List.length_map, List.length_range]
  · simp only [generate_images, h, RunLog_app_calls, hcall]
    rfl
  · simp only [generate_images, h]
    rw [hs, update_status_session]
  · simp only [generate_images, h]
    rw [hq, update_status_planQuality]
  · simp only [generate_images, h]
    rw [hp, update_status_scene_plan, h, Option.isSome_some]

theorem videoDispatchPairs_fst (plan : ScenePlan) :
    (videoDispatchPairs plan).map Prod.fst = List.range plan.scenes.length := by
  refine List.map_fst_zip _ _ ?_
  simp [prevImagePaths]

theorem generate_videos_spec (venv : Nat → ToolOutcome) (st : WorkflowState)
    (plan : ScenePlan) (h : st.scene_plan = some plan) :
    (generate_videos venv st).1 = Except.ok
      (((videoDispatchPairs plan).map
          (fun ip => videoResultFor (venv ip.1) st ip)).countP (fun r => r.success),
        plan.scenes.length -
          ((videoDispatchPairs plan).map
            (fun ip => videoResultFor (venv ip.1) st ip)).countP (fun r => r.success))
    ∧ (generate_videos venv st).2.2.calls =
        (videoDispatchPairs plan).filterMap (videoCallFor st)
    ∧ (generate_videos venv st).2.1.session_id = st.session_id
    ∧ (generate_videos venv st).2.1.planQuality = st.planQuality
    ∧ (generate_videos venv st).2.1.scene_plan.isSome = true := by
  have hnd : ((videoDispatchPairs plan).map Prod.fst).Nodup := by
    rw [videoDispatchPairs_fst]; exact List.nodup_range _
  obtain ⟨hc, hr, hs, hq, hp, _⟩ := runVideoTasks_spec venv (videoDispatchPairs plan)
    (st.update_status WorkflowStatus.generating_videos) hnd
  have hres : (runVideoTasks venv (st.update_status WorkflowStatus.generating_videos)
      (videoDispatchPairs plan)).2.2 =
      (videoDispatchPairs plan).map (fun ip => videoResultFor (venv ip.1) st ip) := by
    rw [hr]
    exact List.map_congr_left (fun ip _ => videoResultFor_congr (venv ip.1) st _ ip rfl)
  have hcall : (runVideoTasks venv (st.update_status WorkflowStatus.generating_videos)
      (videoDispatchPairs plan)).2.1.calls =
      (videoDispatchPairs plan).filterMap (videoCallFor st) := by
    rw [hc]
    exact List.filterMap_congr (fun ip _ => videoCallFor_congr st _ ip rfl rfl rfl)
  have hlen : (videoDispatchPairs plan).length = plan.scenes.length := by
    have := congrArg List.length (videoDispatchPairs_fst plan)
    simpa using this
  have hpz : (List.range plan.scenes.length).zip (prevImagePaths plan.scenes) =
      videoDispatchPairs plan := rfl
  refine ⟨?_, ?_, ?_, ?_, ?_⟩
  · simp only [generate_videos, h]
    rw [hpz, hres, List.length_map, hlen]
  · simp only [generate_videos, h, RunLog_app_calls]
    rw [hpz, hcall, List.nil_append]
  · simp only [generate_videos, h]
    rw [hpz, hs, update_status_session]
  · simp only [generate_videos, h]
    rw [hpz, hq, update_status_planQuality]
  · simp only [generate_videos, h]
    rw [hpz, hp, update_status_scene_plan, h, Option.isSome_some]

theorem countP_ne_zero_exists {l : List ToolResult}
    (h : l.countP (fun r => r.success) ≠ 0) : ∃ r ∈ l, r.success = true := by
  by_contra hc
  push_neg at hc
  exact h (List.countP_eq_zero.mpr (fun r hr => by simp [hc r hr]))

theorem concat_stage_spec (cres : ConcatOutcome) (st : WorkflowState) (plan : ScenePlan)
    (h : st.scene_plan = some plan) :
    (sceneVideoPaths plan.scenes = [] →
       (concatenate_videos cres st).1 = Except.error "No videos available for concatenation")
    ∧ (sceneVideoPaths plan.scenes ≠ [] →
        (concatenate_videos cres st).2.2.calls =
          [GatewayCall.concat st.session_id (sceneVideoPaths plan.scenes)]
        ∧ (∀ p, cres = ConcatOutcome.ok p →
            (concatenate_videos cres st).1 =
              Except.ok { success := true, path := some p }
            ∧ (concatenate_videos cres st).2.1.status = WorkflowStatus.completed
            ∧ (concatenate_videos cres st).2.1.assets.final_video = some p
            ∧ (concatenate_videos cres st).2.2.saved.getLast? =
                some (concatenate_videos cres st).2.1)
        ∧ (∀ e, cres = ConcatOutcome.fail e →
            (concatenate_videos cres st).1 =
              Except.ok { success := false, error := some e })) := by
  constructor
  · intro hnil
    simp [concatenate_videos, h, hnil]
  · intro hne
    refine ⟨?_, ?_, ?_⟩
    · cases cres <;> simp [concatenate_videos, h, hne]
    · intro p hp
      subst hp
      refine ⟨?_, ?_, ?_, ?_⟩ <;>
        simp [concatenate_videos, WorkflowState.update_status, h, hne]
    · intro e he
      subst he
      simp [concatenate_videos, h, hne]

theorem generate_videos_succ_hasVideo (venv : Nat → ToolOutcome) (st : WorkflowState)
    (plan : ScenePlan) (h : st.scene_plan = some plan)
    (hv : ∀ i p, venv i = ToolOutcome.ok p → p ≠ "") :
    ∀ s f, (generate_videos venv st).1 = Except.ok (s, f) → s ≠ 0 →
      hasVideo (generate_videos venv st).2.1 := by
  intro s f hr hs
  simp only [generate_videos, h] at hr ⊢
  have hcnt : (runVideoTasks venv (st.update_status WorkflowStatus.generating_videos)
      ((List.range plan.scenes.length).zip (prevImagePaths plan.scenes))).2.2.countP
        (fun r => r.success) = s := by
    exact (Prod.mk.injEq _ _ _ _).mp (Except.ok.inj hr) |>.1
  refine runVideoTasks_hasVideo venv hv _ _ (Or.inl ?_)
  exact countP_ne_zero_exists (by rw [hcnt]; exact hs)

theorem concat_msg_ne_empty (e : String) : ("Concatenation failed: " ++ e) ≠ "" := by
  intro h
  have hlen := congrArg String.length h
  rw [String.length_append] at hlen
  have h22 : ("Concatenation failed: " : String).length = 22 := by decide
  rw [h22] at hlen
  simp at hlen

theorem pipelineFail_conclusion (e : String) (s : WorkflowState) (log : RunLog)
    (P : Prop) (hne : e ≠ "") (hnp : ¬ P) :
    ((pipelineFail e s log).1.isOk = true ↔ P)
    ∧ (∀ e', (pipelineFail e s log).1 = Except.error e' →
        (pipelineFail e s log).2.1.status = WorkflowStatus.failed
        ∧ (pipelineFail e s log).2.1.error_message = some e'
        ∧ e' ≠ ""
        ∧ (pipelineFail e s log).2.2.saved.getLast? = some (pipelineFail e s log).2.1)
    ∧ ((pipelineFail e s log).1.isOk = true →
        (pipelineFail e s log).2.1.status = WorkflowStatus.completed) := by
  refine ⟨⟨fun h => ?_, fun h => absurd h hnp⟩, fun e' he' => ?_, fun h => ?_⟩
  · simp [pipelineFail, Except.isOk, Except.toBool] at h
  · have hee : e = e' := Except.error.inj he'
    subst hee
    obtain ⟨_, h2, h3, h4⟩ := pipelineFail_spec e s log
    exact ⟨h2, h3, hne, h4⟩
  · simp [pipelineFail, Except.isOk, Except.toBool] at h

/-- C1: for every workflow state with a scene plan (and a gateway whose video
asset paths are non-empty strings), `execute_full_production` aborts if and
only if the image stage has zero successes, the video stage has zero
successes, or the concatenation tool reports failure; on abort the state
becomes FAILED with a non-empty error message, is persisted (it is the last
state saved), and the error propagates to the caller; otherwise the pipeline
runs to COMPLETED, so a stage with at least one success never makes the
status FAILED by itself. -/
theorem execute_full_production_stage_fatal (ienv venv : Nat → ToolOutcome)
    (cres : ConcatOutcome) (st : WorkflowState) (plan : ScenePlan)
    (hplan : st.scene_plan = some plan)
    (hv : ∀ i p, venv i = ToolOutcome.ok p → p ≠ "") :
    ((execute_full_production ienv venv cres st).1.isOk = true ↔
      ((∀ s f, (generate_images ienv st).1 = Except.ok (s, f) → s ≠ 0)
        ∧ (∀ s f, (generate_videos venv (generate_images ienv st).2.1).1 =
            Except.ok (s, f) → s ≠ 0)
        ∧ (∃ p, cres = ConcatOutcome.ok p)))
    ∧ (∀ e, (execute_full_production ienv venv cres st).1 = Except.error e →
        (execute_full_production ienv venv cres st).2.1.status = WorkflowStatus.failed
        ∧ (execute_full_production ienv venv cres st).2.1.error_message = some e
        ∧ e ≠ ""
        ∧ (execute_full_production ienv venv cres st).2.2.saved.getLast? =
            some (execute_full_production ienv venv cres st).2.1)
    ∧ ((execute_full_production ienv venv cres st).1.isOk = true →
        (execute_full_production ienv venv cres st).2.1.status =
          WorkflowStatus.completed) := by
  obtain ⟨h1r, _, _, _, h1p⟩ := generate_images_spec ienv st plan hplan
  rcases hgi : generate_images ienv st with ⟨r1, stA, logA⟩
  rw [hgi] at h1r h1p
  dsimp only at h1r h1p
  obtain ⟨imgCnt, imgF, h1ok⟩ : ∃ a b, r1 = Except.ok (a, b) := ⟨_, _, h1r⟩
  subst h1ok
  obtain ⟨plan1, hplan1⟩ := Option.isSome_iff_exists.mp h1p
  obtain ⟨h2r, _, _, _, h2p⟩ := generate_videos_spec venv stA plan1 hplan1
  rcases hgv : generate_videos venv stA with ⟨r2, stB, logB⟩
  rw [hgv] at h2r h2p
  dsimp only at h2r h2p
  obtain ⟨vidCnt, vidF, h2ok⟩ : ∃ a b, r2 = Except.ok (a, b) := ⟨_, _, h2r⟩
  subst h2ok
  obtain ⟨plan2, hplan2⟩ := Option.isSome_iff_exists.mp h2p
  simp only [execute_full_production, hgi, hgv]
  by_cases h0 : imgCnt = 0
  · subst h0
    simp only [if_pos rfl]
    refine pipelineFail_conclusion _ _ _ _ (by decide) ?_
    rintro ⟨hA, -, -⟩
    exact hA 0 imgF rfl rfl
  · simp only [if_neg h0]
    by_cases hv0 : vidCnt = 0
    · subst hv0
      simp only [if_pos rfl]
      refine pipelineFail_conclusion _ _ _ _ (by decide) ?_
      rintro ⟨-, hB, -⟩
      exact hB 0 vidF rfl rfl
    · simp only [if_neg hv0]
      have hBvid : hasVideo stB := by
        have := generate_videos_succ_hasVideo venv stA plan1 hplan1 hv vidCnt vidF
          (by rw [hgv]) hv0
        rwa [hgv] at this
      have hne : sceneVideoPaths plan2.scenes ≠ [] := by
        intro hnil
        obtain ⟨sc, hmem, htr⟩ := hBvid
        rw [show stB.planScenes = plan2.scenes by
          simp [WorkflowState.planScenes, hplan2]] at hmem
        rw [(sceneVideoPaths_eq_nil_iff plan2.scenes).mp hnil sc hmem] at htr
        exact Bool.noConfusion htr
      obtain ⟨-, hok⟩ := concat_stage_spec cres stB plan2 hplan2
      obtain ⟨-, hokfun, hfailfun⟩ := hok hne
      cases cres with
      | ok p =>
        obtain ⟨hc1, hc2, -, -⟩ := hokfun p rfl
        rcases hgc : concatenate_videos (ConcatOutcome.ok p) stB with ⟨r3, stC, logC⟩
        rw [hgc] at hc1 hc2
        dsimp only at hc1 hc2
        subst hc1
        simp only [if_pos rfl]
        refine ⟨⟨fun _ => ⟨?_, ?_, p, rfl⟩, fun _ => rfl⟩, fun e' he' => ?_, fun _ => hc2⟩
        · intro s f hsf
          have hs : imgCnt = s := ((Prod.mk.injEq _ _ _ _).mp (Except.ok.inj hsf)).1
          exact hs ▸ h0
        · intro s f hsf
          have hs : vidCnt = s := ((Prod.mk.injEq _ _ _ _).mp (Except.ok.inj hsf)).1
          exact hs ▸ hv0
        · exact Except.noConfusion he'
      | fail e =>
        have hc1 := hfailfun e rfl
        rcases hgc : concatenate_videos (ConcatOutcome.fail e) stB with ⟨r3, stC, logC⟩
        rw [hgc] at hc1
        dsimp only at hc1
        subst hc1
        simp only [Option.getD_some]
        refine pipelineFail_conclusion _ _ _ _ (concat_msg_ne_empty e) ?_
        rintro ⟨-, -, p, hp⟩
        exact ConcatOutcome.noConfusion hp

theorem mark_image_generated_mem (ps : ProductionState) (sid : String) :
    sid ∈ (ps.mark_image_generated sid).images_generated := by
  unfold ProductionState.mark_image_generated
  split
  · assumption
  · simp

theorem mark_video_generated_mem (ps : ProductionState) (sid : String) :
    sid ∈ (ps.mark_video_generated sid).videos_generated := by
  unfold ProductionState.mark_video_generated
  split
  · assumption
  · simp

theorem mark_scene_failed_mem (ps : ProductionState) (sid : String) :
    sid ∈ (ps.mark_scene_failed sid).failed_scenes := by
  unfold ProductionState.mark_scene_failed
  split
  · assumption
  · simp

theorem filterMap_eq_map_of_forall {α β : Type} (f : α → Option β) (g : α → β) :
    ∀ l : List α, (∀ a ∈ l, f a = some (g a)) → l.filterMap f = l.map g := by
  intro l
  induction l with
  | nil => intro _; rfl
  | cons a rest ih =>
    intro h
    rw [List.filterMap_cons, h a (List.mem_cons_self a rest), List.map_cons,
      ih (fun b hb => h b (List.mem_cons_of_mem a hb))]

/-- C9: the three ProductionState marking operations are idempotent — marking
an id that is already in the corresponding list leaves the state unchanged —
membership holds after each call, and no duplicates are ever introduced. -/
theorem production_state_marks_idempotent (ps : ProductionState) (sid : String) :
    (sid ∈ ps.images_generated → ps.mark_image_generated sid = ps)
    ∧ (sid ∈ ps.videos_generated → ps.mark_video_generated sid = ps)
    ∧ (sid ∈ ps.failed_scenes → ps.mark_scene_failed sid = ps)
    ∧ (ps.mark_image_generated sid).is_image_generated sid = true
    ∧ (ps.mark_video_generated sid).is_video_generated sid = true
    ∧ (ps.mark_scene_failed sid).is_scene_failed sid = true
    ∧ (ps.images_generated.Nodup → (ps.mark_image_generated sid).images_generated.Nodup)
    ∧ (ps.videos_generated.Nodup → (ps.mark_video_generated sid).videos_generated.Nodup)
    ∧ (ps.failed_scenes.Nodup → (ps.mark_scene_failed sid).failed_scenes.Nodup) := by
  refine ⟨fun h => ?_, fun h => ?_, fun h => ?_, ?_, ?_, ?_, fun h => ?_, fun h => ?_,
    fun h => ?_⟩
  · simp [ProductionState.mark_image_generated, h]
  · simp [ProductionState.mark_video_generated, h]
  · simp [ProductionState.mark_scene_failed, h]
  · simp [ProductionState.is_image_generated, mark_image_generated_mem]
  · simp [ProductionState.is_video_generated, mark_video_generated_mem]
  · simp [ProductionState.is_scene_failed, mark_scene_failed_mem]
  · unfold ProductionState.mark_image_generated
    split
    · exact h
    · next h2 => simp [List.nodup_append, h, h2]
  · unfold ProductionState.mark_video_generated
    split
    · exact h
    · next h2 => simp [List.nodup_append, h, h2]
  · unfold ProductionState.mark_scene_failed
    split
    · exact h
    · next h2 => simp [List.nodup_append, h, h2]

/-- Witness for C9 at a concrete ProductionState. -/
theorem production_state_marks_idempotent_witness :
    wProdState.mark_image_generated "scene_1" = wProdState
    ∧ (wProdState.mark_video_generated "scene_2").is_video_generated "scene_2" = true
    ∧ (wProdState.images_generated.Nodup →
        (wProdState.mark_image_generated "scene_3").images_generated.Nodup) := by
  refine ⟨?_, ?_, fun h => ?_⟩
  · exact (production_state_marks_idempotent wProdState "scene_1").1 (by decide)
  · exact (production_state_marks_idempotent wProdState "scene_2").2.2.2.2.1
  · exact (production_state_marks_idempotent wProdState "scene_3").2.2.2.2.2.2.1 h

/-- C5 counterexample: WorkflowState does not enforce terminality — a state
whose status is COMPLETED still accepts `update_status` (and `mark_failed`),
contradicting the claim that no further status transition or mutation is
accepted once COMPLETED or FAILED. -/
theorem terminal_states_not_enforced :
    doneState.status = WorkflowStatus.completed
    ∧ (doneState.update_status WorkflowStatus.planning).status = WorkflowStatus.planning
    ∧ (doneState.update_status WorkflowStatus.planning).status ≠ WorkflowStatus.completed
    ∧ (doneState.mark_failed "late failure").status = WorkflowStatus.failed
    ∧ (doneState.mark_failed "late failure").error_message = some "late failure" := by
  refine ⟨rfl, rfl, ?_, rfl, rfl⟩
  decide

/-- C5 (amended): `can_resume` returns true exactly when the status is
neither COMPLETED nor FAILED; however no terminality is enforced by
WorkflowState itself — `update_status` sets any requested status and
`mark_failed` marks FAILED from any status, including the terminal ones. -/
theorem can_resume_iff_not_terminal (st : WorkflowState) :
    (st.can_resume = true ↔
      st.status ≠ WorkflowStatus.completed ∧ st.status ≠ WorkflowStatus.failed)
    ∧ (∀ s, (st.update_status s).status = s)
    ∧ (∀ e, (st.mark_failed e).status = WorkflowStatus.failed
        ∧ (st.mark_failed e).error_message = some e) := by
  refine ⟨?_, fun s => rfl, fun e => ⟨rfl, rfl⟩⟩
  simp [WorkflowState.can_resume]

theorem ratAbs_eq_abs (x : ℚ) : ratAbs x = |x| := by
  unfold ratAbs
  by_cases h : x < 0
  · rw [if_pos h, abs_of_neg h]
  · rw [if_neg h, abs_of_nonneg (not_lt.mp h)]

theorem validateScenes_none_iff (m : ℚ) (l : List Scene) :
    validateScenes m l = none ↔
      ∀ sc ∈ l, sc.duration ≤ m ∧ sc.video_prompt ≠ "" ∧ sc.end_image_prompt ≠ "" := by
  induction l with
  | nil => simp [validateScenes]
  | cons sc rest ih =>
    unfold validateScenes
    by_cases h1 : sc.duration > m
    · simp only [if_pos h1]
      constructor
      · intro h; exact Option.noConfusion h
      · intro hall
        exact absurd h1 (not_lt.mpr (hall sc (List.mem_cons_self sc rest)).1)
    · simp only [if_neg h1]
      by_cases h2 : sc.video_prompt = ""
      · simp only [if_pos h2]
        constructor
        · intro h; exact Option.noConfusion h
        · intro hall; exact absurd h2 (hall sc (List.mem_cons_self sc rest)).2.1
      · simp only [if_neg h2]
        by_cases h3 : sc.end_image_prompt = ""
        · simp only [if_pos h3]
          constructor
          · intro h; exact Option.noConfusion h
          · intro hall; exact absurd h3 (hall sc (List.mem_cons_self sc rest)).2.2
        · simp only [if_neg h3]
          rw [ih]
          constructor
          · intro hall sc' hsc'
            rcases List.mem_cons.mp hsc' with rfl | hmem
            · exact ⟨not_lt.mp h1, h2, h3⟩
            · exact hall sc' hmem
          · intro hall sc' hsc'
            exact hall sc' (List.mem_cons_of_mem sc hsc')

/-- C7: scene-plan validation accepts a plan if and only if every scene's
duration is at most the configured maximum, every scene has a non-empty video
prompt and end-image prompt, and the scene-duration sum is within 0.5s of
total_duration; and the interactive approval loop of `src/main.py` never
starts generation on a plan that fails validation. -/
theorem validate_scene_plan_iff (m : ℚ) (plan : ScenePlan) :
    ((validate_scene_plan m plan).1 = true ↔
      ((∀ sc ∈ plan.scenes,
          sc.duration ≤ m ∧ sc.video_prompt ≠ "" ∧ sc.end_image_prompt ≠ "")
        ∧ |(plan.scenes.map Scene.duration).sum - plan.total_duration| ≤ 1 / 2))
    ∧ (∀ approval, (validate_scene_plan m plan).1 = false →
        interactive_plan_step m (some plan) approval ≠ PlanStepAction.generate) := by
  constructor
  · unfold validate_scene_plan
    cases hvs : validateScenes m plan.scenes with
    | some err =>
      simp only
      constructor
      · intro h; exact Bool.noConfusion h
      · intro hall
        rw [(validateScenes_none_iff m plan.scenes).mpr hall.1] at hvs
        exact Option.noConfusion hvs
    | none =>
      dsimp only
      rw [ratAbs_eq_abs]
      by_cases hd : |(plan.scenes.map Scene.duration).sum - plan.total_duration| > 1 / 2
      · simp only [if_pos hd]
        constructor
        · intro h; exact Bool.noConfusion h
        · intro hall; exact absurd hd (not_lt.mpr hall.2)
      · simp only [if_neg hd]
        constructor
        · intro _
          exact ⟨(validateScenes_none_iff m plan.scenes).mp hvs, not_lt.mp hd⟩
        · intro _
          trivial
  · intro approval hfalse
    simp [interactive_plan_step, hfalse]

/-- Witness for C7: the mismatched plan fails validation and the interactive
loop does not start generation on it even when the user answers yes. -/
theorem validate_scene_plan_iff_witness :
    interactive_plan_step 8 (some wBadPlan) "yes" ≠ PlanStepAction.generate :=
  (validate_scene_plan_iff 8 wBadPlan).2 "yes" (by
    simp [validate_scene_plan, validateScenes, wBadPlan, wScene1, wScene2, wScene3, ratAbs]
    norm_num)

/-- C4: the video list handed to the concatenation tool is exactly the video
paths of the scenes that have one, in the plan's original scene order, and it
depends only on the scene plan — two states with the same plan but different
completion bookkeeping (ProductionState, AssetPaths) produce the same
concatenation call. -/
theorem concat_list_in_plan_order (cres : ConcatOutcome) (st st' : WorkflowState)
    (plan : ScenePlan) (hplan : st.scene_plan = some plan)
    (hplan' : st'.scene_plan = some plan) (hses : st'.session_id = st.session_id) :
    sceneVideoPaths plan.scenes =
      plan.scenes.filterMap
        (fun sc => if strTruthy sc.video_path then sc.video_path else none)
    ∧ (∀ call ∈ (concatenate_videos cres st).2.2.calls,
        call = GatewayCall.concat st.session_id (sceneVideoPaths plan.scenes))
    ∧ (concatenate_videos cres st).2.2.calls = (concatenate_videos cres st').2.2.calls := by
  refine ⟨sceneVideoPaths_eq_filterMap plan.scenes, ?_, ?_⟩
  · by_cases hnil : sceneVideoPaths plan.scenes = []
    · intro call hcall
      simp [concatenate_videos, hplan, hnil] at hcall
    · obtain ⟨-, hok⟩ := concat_stage_spec cres st plan hplan
      obtain ⟨hcalls, -, -⟩ := hok hnil
      intro call hcall
      rw [hcalls] at hcall
      simpa using hcall
  · by_cases hnil : sceneVideoPaths plan.scenes = []
    · cases cres <;> simp [concatenate_videos, hplan, hplan', hnil]
    · obtain ⟨-, hok⟩ := concat_stage_spec cres st plan hplan
      obtain ⟨hcalls, -, -⟩ := hok hnil
      obtain ⟨-, hok'⟩ := concat_stage_spec cres st' plan hplan'
      obtain ⟨hcalls', -, -⟩ := hok' hnil
      rw [hcalls, hcalls', hses]

/-- Witness for C4: at the concrete completed states the concatenation input
is the plan-ordered path list and is insensitive to the recorded completion
order. -/
theorem concat_list_in_plan_order_witness :
    sceneVideoPaths wPlanV.scenes = ["v1.mp4", "v2.mp4", "v3.mp4"]
    ∧ (concatenate_videos (ConcatOutcome.ok "final.mp4") wStateV).2.2.calls =
        (concatenate_videos (ConcatOutcome.ok "final.mp4") wStateV2).2.2.calls := by
  constructor
  · rfl
  · exact (concat_list_in_plan_order (ConcatOutcome.ok "final.mp4") wStateV wStateV2
      wPlanV rfl rfl rfl).2.2

/-- C6: `concatenate_videos` fails with an error when no scene has a video
asset; with at least one video present and a successful tool result it sets
the final asset path, transitions the status to COMPLETED, and persists the
resulting state (it is the last state saved). -/
theorem concatenate_videos_contract (cres : ConcatOutcome) (st : WorkflowState)
    (plan : ScenePlan) (hplan : st.scene_plan = some plan) :
    ((∀ sc ∈ plan.scenes, strTruthy sc.video_path = false) →
        (concatenate_videos cres st).1 =
          Except.error "No videos available for concatenation")
    ∧ (∀ p, cres = ConcatOutcome.ok p →
        (∃ sc ∈ plan.scenes, strTruthy sc.video_path = true) →
        (concatenate_videos cres st).2.1.assets.final_video = some p
        ∧ (concatenate_videos cres st).2.1.status = WorkflowStatus.completed
        ∧ (concatenate_videos cres st).2.2.saved.getLast? =
            some (concatenate_videos cres st).2.1
        ∧ (concatenate_videos cres st).1 =
            Except.ok { success := true, path := some p }) := by
  obtain ⟨hnil, hok⟩ := concat_stage_spec cres st plan hplan
  constructor
  · intro hall
    exact hnil ((sceneVideoPaths_eq_nil_iff plan.scenes).mpr hall)
  · intro p hp hex
    have hne : sceneVideoPaths plan.scenes ≠ [] := by
      intro h0
      obtain ⟨sc, hmem, htr⟩ := hex
      rw [(sceneVideoPaths_eq_nil_iff plan.scenes).mp h0 sc hmem] at htr
      exact Bool.noConfusion htr
    obtain ⟨-, hokfun, -⟩ := hok hne
    obtain ⟨h1, h2, h3, h4⟩ := hokfun p hp
    exact ⟨h3, h2, h4, h1⟩

/-- Witness for C6 at the concrete completed state with a successful tool. -/
theorem concatenate_videos_contract_witness :
    (concatenate_videos (ConcatOutcome.ok "final.mp4") wStateV).2.1.assets.final_video =
      some "final.mp4"
    ∧ (concatenate_videos (ConcatOutcome.ok "final.mp4") wStateV).2.1.status =
        WorkflowStatus.completed := by
  have h := (concatenate_videos_contract (ConcatOutcome.ok "final.mp4") wStateV wPlanV
    rfl).2 "final.mp4" rfl ⟨wScene1v, List.mem_cons_self wScene1v _, rfl⟩
  exact ⟨h.1, h.2.1⟩

theorem option_eq_some_getD {α : Type} (o : Option α) (d : α) (h : o ≠ none) :
    o = some (o.getD d) := by
  cases o with
  | none => exact absurd rfl h
  | some a => rfl

/-- C2 counterexample: re-running a stage on a reloaded state does not skip
completed scenes — the only scene already has `image_generated` and
`video_generated` set (and is recorded as done in ProductionState), yet
`generate_images` still dispatches an image-generation task for it and
`generate_videos` still dispatches a video-generation task for it. -/
theorem rerun_dispatches_completed_scenes :
    rScene.image_generated = true
    ∧ rScene.video_generated = true
    ∧ rState.production_state.is_video_generated "scene_1" = true
    ∧ (generate_images (fun _ => ToolOutcome.ok "new.png") rState).2.2.calls =
        [GatewayCall.image "sess-r" "scene_1" "e" "16:9" "hd"]
    ∧ (generate_videos (fun _ => ToolOutcome.ok "new.mp4") rState).2.2.calls =
        [GatewayCall.video "sess-r" "scene_1" "v" 5 "old.png" none "1080p"] := by
  exact ⟨rfl, rfl, by decide, rfl, rfl⟩

/-- C2 (amended): re-running a stage re-dispatches every scene instead of
skipping completed ones: for every state with a plan, `generate_images`
makes exactly one image-gateway call per scene, in plan order, regardless of
the scenes' `image_generated` flags, and `generate_videos` dispatches one
video-gateway call for exactly the scenes whose own end-frame image is
present — `video_generated` is never consulted. -/
theorem stages_redispatch_all_scenes (ienv venv : Nat → ToolOutcome)
    (st : WorkflowState) (plan : ScenePlan) (hplan : st.scene_plan = some plan) :
    (generate_images ienv st).2.2.calls.length = plan.scenes.length
    ∧ (∀ i, (hi : i < plan.scenes.length) →
        (generate_images ienv st).2.2.calls[i]? =
          some (GatewayCall.image st.session_id (plan.scenes[i]).scene_id
            (plan.scenes[i]).end_image_prompt "16:9" "hd"))
    ∧ (generate_videos venv st).2.2.calls =
        (videoDispatchPairs plan).filterMap (videoCallFor st)
    ∧ (∀ i prev sc, plan.scenes[i]? = some sc →
        ((videoCallFor st (i, prev)).isSome = true ↔
          (sc.image_generated = true ∧ strTruthy sc.image_path = true))) := by
  have hps : st.planScenes = plan.scenes := by
    simp [WorkflowState.planScenes, hplan]
  obtain ⟨-, h1c, -, -, -⟩ := generate_images_spec ienv st plan hplan
  obtain ⟨-, h2c, -, -, -⟩ := generate_videos_spec venv st plan hplan
  have hallsome : ∀ i ∈ List.range plan.scenes.length, imageCallFor st i ≠ none := by
    intro i hi
    have hi' : i < plan.scenes.length := List.mem_range.mp hi
    simp [imageCallFor, hps, List.getElem?_eq_getElem hi']
  have hmap : (List.range plan.scenes.length).filterMap (imageCallFor st) =
      (List.range plan.scenes.length).map
        (fun i => (imageCallFor st i).getD nullCall) :=
    filterMap_eq_map_of_forall _ _ _
      (fun i hi => option_eq_some_getD _ _ (hallsome i hi))
  refine ⟨?_, ?_, h2c, ?_⟩
  · rw [h1c, hmap, List.length_map, List.length_range]
  · intro i hi
    rw [h1c, hmap, List.getElem?_map, List.getElem?_range hi, Option.map_some']
    have hcf : imageCallFor st i =
        some (GatewayCall.image st.session_id (plan.scenes[i]).scene_id
          (plan.scenes[i]).end_image_prompt "16:9" "hd") := by
      simp [imageCallFor, hps, List.getElem?_eq_getElem hi]
    rw [hcf, Option.getD_some]
  · intro i prev sc hsc
    have hsc' : st.planScenes[i]? = some sc := by rw [hps, hsc]
    by_cases hg : (sc.image_generated && strTruthy sc.image_path) = true
    · simp only [videoCallFor, hsc', if_pos hg, Option.isSome_some]
      simpa [Bool.and_eq_true] using hg
    · simp only [videoCallFor, hsc', if_neg hg, Option.isSome_none]
      constructor
      · intro hfalse; exact Bool.noConfusion hfalse
      · intro hc
        exact absurd (by simp [Bool.and_eq_true, hc.1, hc.2]) hg

/-- Witness for C2 (amended) at the reloaded one-scene state. -/
theorem stages_redispatch_all_scenes_witness :
    (generate_images (fun _ => ToolOutcome.ok "new.png") rState).2.2.calls.length =
      rPlan.scenes.length
    ∧ (generate_videos (fun _ => ToolOutcome.ok "new.mp4") rState).2.2.calls =
        (videoDispatchPairs rPlan).filterMap (videoCallFor rState) := by
  have h := stages_redispatch_all_scenes (fun _ => ToolOutcome.ok "new.png")
    (fun _ => ToolOutcome.ok "new.mp4") rState rPlan rfl
  exact ⟨h.1, h.2.2.1⟩

/-- C3: when every scene's end-frame image is present, the video stage passes
the first scene no start-frame input and passes every later scene i the
recorded end-frame image path of scene i-1, while each scene's own image path
is its call's end-frame input. -/
theorem video_continuity_wiring (venv : Nat → ToolOutcome) (st : WorkflowState)
    (plan : ScenePlan) (hplan : st.scene_plan = some plan)
    (himg : ∀ sc ∈ plan.scenes,
      sc.image_generated = true ∧ strTruthy sc.image_path = true) :
    ∀ i, (hi : i < plan.scenes.length) →
      (generate_videos venv st).2.2.calls[i]? =
        some (GatewayCall.video st.session_id (plan.scenes[i]).scene_id
          (plan.scenes[i]).video_prompt (plan.scenes[i]).duration
          ((plan.scenes[i]).image_path.getD "")
          (if i = 0 then none else (plan.scenes[i - 1]?).bind Scene.image_path)
          plan.quality) := by
  have hps : st.planScenes = plan.scenes := by
    simp [WorkflowState.planScenes, hplan]
  have hpq : st.planQuality = plan.quality := by
    simp [WorkflowState.planQuality, hplan]
  obtain ⟨-, hcalls, -, -, -⟩ := generate_videos_spec venv st plan hplan
  have hallsome : ∀ ip ∈ videoDispatchPairs plan, videoCallFor st ip ≠ none := by
    rintro ⟨i, prev⟩ hip
    have hi : i < plan.scenes.length :=
      List.mem_range.mp (List.of_mem_zip hip).1
    have hgi := himg (plan.scenes[i]) (List.getElem_mem hi)
    simp [videoCallFor, hps, List.getElem?_eq_getElem hi, hgi.1, hgi.2]
  have hmap : (videoDispatchPairs plan).filterMap (videoCallFor st) =
      (videoDispatchPairs plan).map (fun ip => (videoCallFor st ip).getD nullCall) :=
    filterMap_eq_map_of_forall _ _ _
      (fun ip hip => option_eq_some_getD _ _ (hallsome ip hip))
  intro i hi
  have hpair : (videoDispatchPairs plan)[i]? =
      some (i, if i = 0 then none else (plan.scenes[i - 1]?).bind Scene.image_path) := by
    apply List.getElem?_zip_eq_some.mpr
    refine ⟨List.getElem?_range hi, ?_⟩
    show (prevImagePaths plan.scenes)[i]? =
      some (if i = 0 then none else (plan.scenes[i - 1]?).bind Scene.image_path)
    rw [prevImagePaths, List.getElem?_map, List.getElem?_range hi, Option.map_some']
  rw [hcalls, hmap, List.getElem?_map, hpair, Option.map_some']
  have hgi := himg (plan.scenes[i]) (List.getElem_mem hi)
  have hcf : videoCallFor st
      (i, if i = 0 then none else (plan.scenes[i - 1]?).bind Scene.image_path) =
      some (GatewayCall.video st.session_id (plan.scenes[i]).scene_id
        (plan.scenes[i]).video_prompt (plan.scenes[i]).duration
        ((plan.scenes[i]).image_path.getD "")
        (if i = 0 then none else (plan.scenes[i - 1]?).bind Scene.image_path)
        plan.quality) := by
    simp [videoCallFor, hps, hpq, List.getElem?_eq_getElem hi, hgi.1, hgi.2]
  rw [hcf, Option.getD_some]

/-- Witness for C3: in the concrete three-scene state with all images
present, scene 2's video call receives scene 1's image as its start frame. -/
theorem video_continuity_wiring_witness :
    (generate_videos (fun _ => ToolOutcome.ok "v.mp4") wStateI).2.2.calls[1]? =
      some (GatewayCall.video "sess" "scene_2" "pizza being prepared" 8 "i2.png"
        (some "i1.png") "1080p")
    ∧ (generate_videos (fun _ => ToolOutcome.ok "v.mp4") wStateI).2.2.calls[0]? =
        some (GatewayCall.video "sess" "scene_1" "zoom into storefront" 8 "i1.png"
          none "1080p") := by
  have himg : ∀ sc ∈ wPlanI.scenes,
      sc.image_generated = true ∧ strTruthy sc.image_path = true := by
    intro sc hsc
    simp only [wPlanI, List.mem_cons, List.not_mem_nil, or_false] at hsc
    rcases hsc with rfl | rfl | rfl <;> exact ⟨rfl, rfl⟩
  have h := video_continuity_wiring (fun _ => ToolOutcome.ok "v.mp4") wStateI wPlanI
    rfl himg
  constructor
  · simpa using h 1 (by norm_num [wPlanI])
  · simpa using h 0 (by norm_num [wPlanI])

/-- C8: a scene whose own end-frame image was not produced is skipped by the
video stage without crashing it: that scene's task makes no gateway call and
records a failure (the scene is marked failed), the stage still returns
success/failure counts instead of raising, and every scene whose image is
present is still dispatched. -/
theorem video_stage_skips_missing_image (venv : Nat → ToolOutcome)
    (st : WorkflowState) (plan : ScenePlan) (i : Nat) (sc : Scene)
    (hplan : st.scene_plan = some plan) (hsc : plan.scenes[i]? = some sc)
    (hmiss : sc.image_generated = false ∨ strTruthy sc.image_path = false) :
    (∃ s f, (generate_videos venv st).1 = Except.ok (s, f))
    ∧ (∀ prev, (sceneVideoTask (venv i) prev st i).2.1.calls = []
        ∧ (sceneVideoTask (venv i) prev st i).2.2.success = false
        ∧ sc.scene_id ∈
            (sceneVideoTask (venv i) prev st i).1.production_state.failed_scenes)
    ∧ (∀ prev, videoCallFor st (i, prev) = none)
    ∧ (∀ j prev scj, plan.scenes[j]? = some scj → scj.image_generated = true →
        strTruthy scj.image_path = true → videoCallFor st (j, prev) ≠ none) := by
  have hps : st.planScenes = plan.scenes := by
    simp [WorkflowState.planScenes, hplan]
  have hsc' : st.planScenes[i]? = some sc := by rw [hps, hsc]
  have hg : (sc.image_generated && strTruthy sc.image_path) = false := by
    rcases hmiss with h | h <;> simp [h]
  obtain ⟨h1r, -, -, -, -⟩ := generate_videos_spec venv st plan hplan
  refine ⟨⟨_, _, h1r⟩, ?_, ?_, ?_⟩
  · intro prev
    refine ⟨?_, ?_, ?_⟩
    · rw [sceneVideoTask_calls]
      simp [videoCallFor, hsc', hg]
    · rw [sceneVideoTask_result]
      simp [videoResultFor, hsc', hg]
    · cases hsp : st.scene_plan with
      | none => rw [hsp] at hplan; exact Option.noConfusion hplan
      | some plan0 =>
        have hsc0 : plan0.scenes[i]? = some sc := by
          rw [hsp] at hplan
          rw [show plan0 = plan from Option.some.inj hplan, hsc]
        simp only [sceneVideoTask, WorkflowState.planScenes, hsp, hsc0, hg,
          Bool.false_eq_true, if_false]
        exact mark_scene_failed_mem st.production_state sc.scene_id
  · intro prev
    simp [videoCallFor, hsc', hg]
  · intro j prev scj hscj hgen htr
    have hscj' : st.planScenes[j]? = some scj := by rw [hps, hscj]
    simp [videoCallFor, hscj', hgen, htr]

/-- Witness for C8 at the concrete state whose middle scene lacks an image:
its task records a failure without a gateway call while the stage still
returns counts. -/
theorem video_stage_skips_missing_image_witness :
    (∃ s f, (generate_videos (fun _ => ToolOutcome.ok "v.mp4") wStateM).1 =
        Except.ok (s, f))
    ∧ (sceneVideoTask ((fun _ => ToolOutcome.ok "v.mp4") 1) none wStateM 1).2.1.calls = []
    ∧ videoCallFor wStateM (1, none) = none
    ∧ videoCallFor wStateM (0, none) ≠ none := by
  have h := video_stage_skips_missing_image (fun _ => ToolOutcome.ok "v.mp4") wStateM
    wPlanM 1 wScene2 rfl rfl (Or.inl rfl)
  exact ⟨h.1, (h.2.1 none).1, h.2.2.1 none,
    h.2.2.2 0 none wScene1i rfl rfl rfl⟩

/-- C10: with a scene plan of n scenes, each stage returns a `(successful,
failed)` pair with `successful + failed = n` and never raises, for every
assignment of per-task outcomes — including exceptions inside tasks; an
exception raised inside a per-scene task is caught and converted into a
failure result with the scene marked failed in ProductionState, so it cannot
abort sibling tasks. -/
theorem stage_counts_and_exception_isolation (ienv venv : Nat → ToolOutcome)
    (st : WorkflowState) (plan : ScenePlan) (hplan : st.scene_plan = some plan) :
    (∃ s f, (generate_images ienv st).1 = Except.ok (s, f) ∧ s + f = plan.scenes.length)
    ∧ (∃ s f, (generate_videos venv st).1 = Except.ok (s, f)
        ∧ s + f = plan.scenes.length)
    ∧ (∀ e i sc, st.planScenes[i]? = some sc →
        (sceneImageTask (ToolOutcome.exn e) st i).2.2 =
          { success := false, path := none, error := some e }
        ∧ sc.scene_id ∈
            (sceneImageTask (ToolOutcome.exn e) st i).1.production_state.failed_scenes)
    ∧ (∀ e i prev sc, st.planScenes[i]? = some sc →
        (sceneVideoTask (ToolOutcome.exn e) prev st i).2.2.success = false
        ∧ sc.scene_id ∈
            (sceneVideoTask (ToolOutcome.exn e) prev st i).1.production_state.failed_scenes) := by
  obtain ⟨h1r, -, -, -, -⟩ := generate_images_spec ienv st plan hplan
  obtain ⟨h2r, -, -, -, -⟩ := generate_videos_spec venv st plan hplan
  refine ⟨⟨_, _, h1r, ?_⟩, ⟨_, _, h2r, ?_⟩, ?_, ?_⟩
  · refine Nat.add_sub_cancel' ?_
    calc ((List.range plan.scenes.length).map
        (fun i => imageResultFor (ienv i) st i)).countP (fun r => r.success)
        ≤ ((List.range plan.scenes.length).map
            (fun i => imageResultFor (ienv i) st i)).length := List.countP_le_length _
      _ = plan.scenes.length := by rw [List.length_map, List.length_range]
  · refine Nat.add_sub_cancel' ?_
    have hlen : (videoDispatchPairs plan).length = plan.scenes.length := by
      have := congrArg List.length (videoDispatchPairs_fst plan)
      simpa using this
    calc ((videoDispatchPairs plan).map
        (fun ip => videoResultFor (venv ip.1) st ip)).countP (fun r => r.success)
        ≤ ((videoDispatchPairs plan).map
            (fun ip => videoResultFor (venv ip.1) st ip)).length := List.countP_le_length _
      _ = plan.scenes.length := by rw [List.length_map, hlen]
  · intro e i sc hsc
    constructor
    · rw [sceneImageTask_result]
      simp [imageResultFor, hsc]
    · cases hsp : st.scene_plan with
      | none =>
        rw [show st.planScenes = [] by simp [WorkflowState.planScenes, hsp]] at hsc
        simp at hsc
      | some plan0 =>
        have hsc0 : plan0.scenes[i]? = some sc := by
          rw [show st.planScenes = plan0.scenes by
            simp [WorkflowState.planScenes, hsp]] at hsc
          exact hsc
        simp only [sceneImageTask, WorkflowState.planScenes, hsp, hsc0]
        exact mark_scene_failed_mem st.production_state sc.scene_id
  · intro e i prev sc hsc
    constructor
    · rw [sceneVideoTask_result]
      by_cases hg : (sc.image_generated && strTruthy sc.image_path) = true <;>
        simp [videoResultFor, hsc, hg]
    · cases hsp : st.scene_plan with
      | none =>
        rw [show st.planScenes = [] by simp [WorkflowState.planScenes, hsp]] at hsc
        simp at hsc
      | some plan0 =>
        have hsc0 : plan0.scenes[i]? = some sc := by
          rw [show st.planScenes = plan0.scenes by
            simp [WorkflowState.planScenes, hsp]] at hsc
          exact hsc
        simp only [sceneVideoTask, WorkflowState.planScenes, hsp, hsc0]
        split <;> exact mark_scene_failed_mem st.production_state sc.scene_id

/-- Witness for C10 at the concrete three-scene state with an exception-only
gateway: both stages return counts summing to 3 and the exception becomes a
failure result. -/
theorem stage_counts_and_exception_isolation_witness :
    (∃ s f, (generate_images (fun _ => ToolOutcome.exn "boom") wState).1 =
        Except.ok (s, f) ∧ s + f = wPlan.scenes.length)
    ∧ (sceneImageTask (ToolOutcome.exn "boom") wState 0).2.2 =
        { success := false, path := none, error := some "boom" } := by
  have h := stage_counts_and_exception_isolation (fun _ => ToolOutcome.exn "boom")
    (fun _ => ToolOutcome.exn "boom") wState wPlan rfl
  exact ⟨h.1, (h.2.2.1 "boom" 0 wScene1 rfl).1⟩

/-- Witness for C1 at the concrete three-scene state with an all-success
gateway: the pipeline result is a success and the final status COMPLETED. -/
theorem execute_full_production_stage_fatal_witness :
    (execute_full_production (fun _ => ToolOutcome.ok "img.png")
      (fun _ => ToolOutcome.ok "vid.mp4") (ConcatOutcome.ok "final.mp4")
      wState).1.isOk = true
    ∧ (execute_full_production (fun _ => ToolOutcome.ok "img.png")
        (fun _ => ToolOutcome.ok "vid.mp4") (ConcatOutcome.ok "final.mp4")
        wState).2.1.status = WorkflowStatus.completed := by
  have h := execute_full_production_stage_fatal (fun _ => ToolOutcome.ok "img.png")
    (fun _ => ToolOutcome.ok "vid.mp4") (ConcatOutcome.ok "final.mp4") wState wPlan rfl
    (fun i p hp => by
      cases hp
      decide)
  have hok : (execute_full_production (fun _ => ToolOutcome.ok "img.png")
      (fun _ => ToolOutcome.ok "vid.mp4") (ConcatOutcome.ok "final.mp4")
      wState).1.isOk = true := by
    refine h.1.mpr ⟨?_, ?_, "final.mp4", rfl⟩
    · intro s f hsf
      have hgi : (generate_images (fun _ => ToolOutcome.ok "img.png") wState).1 =
          Except.ok (3, 0) := rfl
      rw [hgi] at hsf
      have hs : (3 : Nat) = s := ((Prod.mk.injEq _ _ _ _).mp (Except.ok.inj hsf)).1
      omega
    · intro s f hsf
      have hgv : (generate_videos (fun _ => ToolOutcome.ok "vid.mp4")
          (generate_images (fun _ => ToolOutcome.ok "img.png") wState).2.1).1 =
          Except.ok (3, 0) := rfl
      rw [hgv] at hsf
      have hs : (3 : Nat) = s := ((Prod.mk.injEq _ _ _ _).mp (Except.ok.inj hsf)).1
      omega
  exact ⟨hok, h.2.2 hok⟩

end Claudio
